import Mathlib

set_option linter.unusedVariables false

/-!
Shallow embedding of the instructional-design pipeline in
`src/ai_module_platform.py`: the five stage functions
(`classify_content`, `generate_objectives`, `select_archetypes`,
`build_blueprint`, `validate_inputs`) and the endpoint handlers
(`analyse_document`, `analyze_alias`, `generate_blueprint`,
`validate_module`).

Python dicts are modelled as insertion-ordered association lists, so that
iteration-order-dependent behaviour (notably `max(domains, key=domains.get)`)
is captured faithfully.  Confidence values are modelled as rationals; all
numeric literals in the source are exact decimals, so ordering and equality
comparisons agree with the Python floats.  An endpoint raising
`HTTPException(status_code=400, ...)` is modelled as `Except.error
Err.InvalidInput`.
-/

/-- Failure modes of the endpoint handlers.  `InvalidInput` models an HTTP
400 rejection; `ValueErr` models the `ValueError` that Python `max` raises
on an empty iterable (unreachable through the endpoints, where the scores
mapping always has three entries). -/
inductive Err where
  | InvalidInput
  | ValueErr
  deriving DecidableEq, Repr

/-- A Python `Dict[str, float]` of classification scores, as an
insertion-ordered association list with rational values. -/
abbrev Scores := List (String × ℚ)

/-- Embeds `classify_content` (src line 87): the stub ignores its input and
returns the fixed distribution factual 0.3, procedural 0.4, conceptual 0.3. -/
def classify_content (text : String) : Scores :=
  [("factual", (3 : ℚ)/10), ("procedural", (4 : ℚ)/10), ("conceptual", (3 : ℚ)/10)]

/-- Embeds `generate_objectives` (src line 93): the stub ignores its input
and returns two fixed objective strings. -/
def generate_objectives (text : String) : List String :=
  ["Explain key concepts from the input file with 100% accuracy.",
   "Apply the described procedures in a simulated environment with ≥85% success."]

/-- Helper for `dictMax`: scans the remaining entries keeping the current
best key, replacing it only on a strictly greater value, exactly as CPython
`max` keeps the first maximal element in iteration order. -/
def dictMaxGo (k : String) (v : ℚ) : Scores → String
  | [] => k
  | (k', v') :: rest => if v' > v then dictMaxGo k' v' rest else dictMaxGo k v rest

/-- Embeds `max(domains, key=domains.get)` (src line 104): the first key in
the dict's insertion order attaining the maximal value, `none` on an empty
dict (where Python raises `ValueError`). -/
def dictMax : Scores → Option String
  | [] => none
  | (k, v) :: rest => some (dictMaxGo k v rest)

/-- The fixed domain-to-archetype table built inside `select_archetypes`
(src lines 105–109), in its insertion order. -/
def archTable : List (String × String) :=
  [("factual", "Knowledge"), ("procedural", "Procedural"), ("conceptual", "Leadership")]

/-- Embeds `mapping.get(primary, "Knowledge")` (src line 110): table lookup
defaulting to "Knowledge" for an unknown label. -/
def archLookup (primary : String) : String :=
  (archTable.lookup primary).getD "Knowledge"

/-- Embeds `select_archetypes` (src lines 102–112): primary archetype from
the table at the dict-order maximal label, then the non-primary table
values in table order truncated to two.  Returns `none` exactly when the
scores dict is empty (Python `max` raises `ValueError` there). -/
def select_archetypes (domains : Scores) : Option (List String) :=
  match dictMax domains with
  | none => none
  | some primary =>
    let primary_arch := archLookup primary
    let secondary_arch := ((archTable.map Prod.snd).filter (· ≠ primary_arch)).take 2
    some (primary_arch :: secondary_arch)

/-- One entry of the `sections` list of a blueprint: `{"name": ..,
"duration": ..}` with the duration kept as the source's string. -/
structure Section where
  name : String
  duration : String
  deriving DecidableEq, Repr

/-- The `overview` sub-dict of a blueprint. -/
structure Overview where
  title : String
  archetypes : List String
  objectives : List String
  deriving DecidableEq, Repr

/-- The dict returned by `build_blueprint`. -/
structure Blueprint where
  overview : Overview
  sections : List Section
  deriving DecidableEq, Repr

/-- Embeds `build_blueprint` (src lines 115–131): constant title and section
template, with the two input lists passed through unchanged. -/
def build_blueprint (objectives : List String) (archetypes : List String) : Blueprint :=
  { overview :=
      { title := "Generated Module"
        archetypes := archetypes
        objectives := objectives }
    sections :=
      [⟨"Module Overview", "5 min"⟩,
       ⟨"Pre-Assessment", "5 min"⟩,
       ⟨"Core Learning", "25 min"⟩,
       ⟨"Application Workshop", "30 min"⟩,
       ⟨"Assessment", "10 min"⟩,
       ⟨"Resources", "5 min"⟩] }

/-- Embeds `validate_inputs` (src lines 134–136): `all` over the dict
values, vacuously true on an empty dict. -/
def validate_inputs (required_fields : List (String × Bool)) : Bool :=
  required_fields.all (fun p => p.2)

/-- The response body of `/analyse`. -/
structure AnalysisResponse where
  domains : Scores
  archetypes : List String
  objectives : List String
  deriving DecidableEq, Repr

/-- The response body of `/blueprint`. -/
structure BlueprintResponse where
  blueprint : Blueprint
  deriving DecidableEq, Repr

/-- The response body of `/validate`. -/
structure ValidationResponse where
  valid : Bool
  message : String
  deriving DecidableEq, Repr

/-- The whitespace set of Python `str.strip()` / `str.isspace()` (CPython
Unicode whitespace): U+0009–U+000D (tab, LF, vertical tab, form feed, CR),
U+001C–U+001F, space, U+0085 (NEL), U+00A0 (NBSP), U+1680, U+2000–U+200A,
U+2028, U+2029, U+202F, U+205F and U+3000. -/
def pyIsSpace (c : Char) : Bool :=
  decide ((9 ≤ c.toNat ∧ c.toNat ≤ 13) ∨ (28 ≤ c.toNat ∧ c.toNat ≤ 31) ∨
    c.toNat = 32 ∨ c.toNat = 133 ∨ c.toNat = 160 ∨ c.toNat = 5760 ∨
    (8192 ≤ c.toNat ∧ c.toNat ≤ 8202) ∨ c.toNat = 8232 ∨ c.toNat = 8233 ∨
    c.toNat = 8239 ∨ c.toNat = 8287 ∨ c.toNat = 12288)

/-- Embeds the guard `not request.content or not request.content.strip()`
(src line 178): true exactly when the content is empty or whitespace-only,
i.e. when every character is Python whitespace (`strip` removes leading and
trailing whitespace, so it returns the empty string exactly then; the empty
string is covered because `all` on it is vacuously true). -/
def isBlank (s : String) : Bool :=
  s.data.all pyIsSpace

/-- Embeds the `/analyse` handler `analyse_document` (src lines 175–183):
reject empty or whitespace-only content with 400 before any stage runs,
then classify, generate objectives, select archetypes and assemble the
response. -/
def analyse_document (content : String) : Except Err AnalysisResponse :=
  if isBlank content then
    .error .InvalidInput
  else
    let domains := classify_content content
    let objectives := generate_objectives content
    match select_archetypes domains with
    | none => .error .ValueErr
    | some archetypes => .ok ⟨domains, archetypes, objectives⟩

/-- Embeds the `/analyze` handler `analyze_alias` (src lines 187–189): a
direct delegation to `analyse_document`. -/
def analyze_alias (content : String) : Except Err AnalysisResponse :=
  analyse_document content

/-- Embeds the `/blueprint` handler `generate_blueprint` (src lines
192–198): reject an empty objectives or archetypes list with 400, otherwise
wrap `build_blueprint`. -/
def generate_blueprint (objectives : List String) (archetypes : List String) :
    Except Err BlueprintResponse :=
  if objectives = [] ∨ archetypes = [] then
    .error .InvalidInput
  else
    .ok ⟨build_blueprint objectives archetypes⟩

/-- Embeds the `/validate` handler `validate_module` (src lines 201–206):
never fails, returns the verdict of `validate_inputs` with one of two fixed
messages. -/
def validate_module (required_fields : List (String × Bool)) : ValidationResponse :=
  let valid := validate_inputs required_fields
  { valid := valid
    message :=
      if valid then "All required inputs provided."
      else "Missing required fields; generation blocked." }

/-- The state of the module-level `vector_store` (src line 75): a list of
(content, metadata) pairs, metadata being a string dict.  The `/analyse`
handler never reads or writes it. -/
abbrev StoreState := List (String × List (String × String))

/-- State-passing embedding of the `/analyse` handler over the only
module-level mutable state, `vector_store`: the handler body (src lines
175–183) references no module state, so the state threads through
unchanged and the result is that of `analyse_document`. -/
def analyse_document_st (content : String) (σ : StoreState) :
    Except Err AnalysisResponse × StoreState :=
  (analyse_document content, σ)

/-- Decimal value of a list of digit characters. -/
def digitsToNat (l : List Char) : ℕ :=
  l.foldl (fun n c => 10 * n + (c.toNat - Char.toNat '0')) 0

/-- Reads the leading minute count of a duration string such as "25 min". -/
def minutesOf (s : String) : ℕ :=
  digitsToNat (s.data.takeWhile Char.isDigit)

deriving instance DecidableEq for Except

/-- On the stub scores the dict-order maximum is the procedural label, the
unique strictly maximal entry. -/
theorem dictMax_classify (t : String) :
    dictMax (classify_content t) = some "procedural" := by
  norm_num [dictMax, dictMaxGo, classify_content]

/-- On the stub scores the selector returns Procedural first, then the two
other table values in table order. -/
theorem select_classify (t : String) :
    select_archetypes (classify_content t) =
      some ["Procedural", "Knowledge", "Leadership"] := by
  rw [select_archetypes, dictMax_classify]
  decide

/-- The archetype looked up for any label is one of the three table values:
the table has exactly the values Knowledge, Procedural, Leadership and the
default for an unknown label is Knowledge. -/
theorem archLookup_mem (p : String) :
    archLookup p = "Knowledge" ∨ archLookup p = "Procedural" ∨
      archLookup p = "Leadership" := by
  rw [archLookup, archTable]
  by_cases h1 : p = "factual"
  · subst h1; simp [List.lookup]
  · by_cases h2 : p = "procedural"
    · subst h2; simp [List.lookup]
    · by_cases h3 : p = "conceptual"
      · subst h3; simp [List.lookup]
      · left
        have e1 : (p == "factual") = false := by simp [h1]
        have e2 : (p == "procedural") = false := by simp [h2]
        have e3 : (p == "conceptual") = false := by simp [h3]
        simp [List.lookup, e1, e2, e3]

/-- C1: the spec mandates that on a tie the primary is the first maximal
label in the canonical order (factual, procedural, conceptual) regardless
of the key order of the mapping.  The code instead takes the first maximal
label in the dict's insertion order: with the keys in canonical order the
documented example result holds, but with the same three scores inserted in
the order procedural, factual, conceptual the primary becomes Procedural
rather than the canonical-first Knowledge. -/
theorem C1_tie_break_follows_insertion_order :
    select_archetypes
        [("factual", (5 : ℚ)/10), ("procedural", (5 : ℚ)/10), ("conceptual", 0)] =
      some ["Knowledge", "Procedural", "Leadership"] ∧
    select_archetypes
        [("procedural", (5 : ℚ)/10), ("factual", (5 : ℚ)/10), ("conceptual", 0)] =
      some ["Procedural", "Knowledge", "Leadership"] ∧
    (["Procedural", "Knowledge", "Leadership"] : List String) ≠
      ["Knowledge", "Procedural", "Leadership"] := by
  refine ⟨?_, ?_, by decide⟩
  · have h : dictMax [("factual", (5 : ℚ)/10), ("procedural", (5 : ℚ)/10), ("conceptual", 0)] =
        some "factual" := by
      norm_num [dictMax, dictMaxGo]
    rw [select_archetypes, h]
    decide
  · have h : dictMax [("procedural", (5 : ℚ)/10), ("factual", (5 : ℚ)/10), ("conceptual", 0)] =
        some "procedural" := by
      norm_num [dictMax, dictMaxGo]
    rw [select_archetypes, h]
    decide

/-- C2 counterexample: the claim says classify fails on empty text and does
not return a score mapping; in the code `classify_content` has no input
check, so at the empty string it returns the full fixed three-label score
mapping. -/
theorem C2_classify_empty_returns_scores :
    classify_content "" =
      [("factual", (3 : ℚ)/10), ("procedural", (4 : ℚ)/10), ("conceptual", (3 : ℚ)/10)] ∧
    classify_content "" ≠ [] := by
  exact ⟨rfl, by decide⟩

/-- C2 amended: `classify_content` itself never fails and returns the fixed
three-label score mapping for every text, including empty or whitespace-only
text; the rejection of blank text with InvalidInput is performed by
`analyse_document` before classification is reached. -/
theorem C2_blank_rejected_before_classify (t : String) (h : isBlank t = true) :
    classify_content t =
      [("factual", (3 : ℚ)/10), ("procedural", (4 : ℚ)/10), ("conceptual", (3 : ℚ)/10)] ∧
    analyse_document t = .error .InvalidInput := by
  refine ⟨rfl, ?_⟩
  rw [analyse_document, if_pos (by simp [h])]

/-- C2 witness: the amended statement at the whitespace-only input " ". -/
theorem C2_blank_rejected_before_classify_witness :
    classify_content " " =
      [("factual", (3 : ℚ)/10), ("procedural", (4 : ℚ)/10), ("conceptual", (3 : ℚ)/10)] ∧
    analyse_document " " = .error .InvalidInput :=
  C2_blank_rejected_before_classify " " (by decide)

/-- C3: on any non-blank text, analyse returns the fixed stub domains
(factual 0.3, procedural 0.4, conceptual 0.3), the archetypes Procedural,
Knowledge, Leadership, and the two fixed canonical objective strings. -/
theorem C3_analyse_fixed_output (t : String) (h : isBlank t = false) :
    analyse_document t =
      .ok ⟨[("factual", (3 : ℚ)/10), ("procedural", (4 : ℚ)/10), ("conceptual", (3 : ℚ)/10)],
        ["Procedural", "Knowledge", "Leadership"],
        ["Explain key concepts from the input file with 100% accuracy.",
         "Apply the described procedures in a simulated environment with ≥85% success."]⟩ := by
  rw [analyse_document, if_neg (by simp [h])]
  simp only [select_classify]
  rfl

/-- C3 witness: the analyse result at the concrete text "doc". -/
theorem C3_analyse_fixed_output_witness :
    analyse_document "doc" =
      .ok ⟨[("factual", (3 : ℚ)/10), ("procedural", (4 : ℚ)/10), ("conceptual", (3 : ℚ)/10)],
        ["Procedural", "Knowledge", "Leadership"],
        ["Explain key concepts from the input file with 100% accuracy.",
         "Apply the described procedures in a simulated environment with ≥85% success."]⟩ :=
  C3_analyse_fixed_output "doc" (by decide)

/-- C4: for non-empty objectives and archetypes, the blueprint has exactly
the six fixed sections in order with fixed durations totaling 80 minutes,
the constant title "Generated Module", and the two input lists unchanged in
the overview. -/
theorem C4_blueprint_fixed_template (objectives archetypes : List String)
    (ho : objectives ≠ []) (ha : archetypes ≠ []) :
    (build_blueprint objectives archetypes).sections =
      [⟨"Module Overview", "5 min"⟩, ⟨"Pre-Assessment", "5 min"⟩,
       ⟨"Core Learning", "25 min"⟩, ⟨"Application Workshop", "30 min"⟩,
       ⟨"Assessment", "10 min"⟩, ⟨"Resources", "5 min"⟩] ∧
    ((build_blueprint objectives archetypes).sections.map
      (fun s => minutesOf s.duration)).sum = 80 ∧
    (build_blueprint objectives archetypes).overview.title = "Generated Module" ∧
    (build_blueprint objectives archetypes).overview.objectives = objectives ∧
    (build_blueprint objectives archetypes).overview.archetypes = archetypes :=
  ⟨rfl, rfl, rfl, rfl, rfl⟩

/-- C4 witness: the template at the concrete input from the spec's test
list, objectives ["Obj1"] and archetypes ["Knowledge"]. -/
theorem C4_blueprint_fixed_template_witness :
    (build_blueprint ["Obj1"] ["Knowledge"]).sections =
      [⟨"Module Overview", "5 min"⟩, ⟨"Pre-Assessment", "5 min"⟩,
       ⟨"Core Learning", "25 min"⟩, ⟨"Application Workshop", "30 min"⟩,
       ⟨"Assessment", "10 min"⟩, ⟨"Resources", "5 min"⟩] ∧
    ((build_blueprint ["Obj1"] ["Knowledge"]).sections.map
      (fun s => minutesOf s.duration)).sum = 80 ∧
    (build_blueprint ["Obj1"] ["Knowledge"]).overview.title = "Generated Module" ∧
    (build_blueprint ["Obj1"] ["Knowledge"]).overview.objectives = ["Obj1"] ∧
    (build_blueprint ["Obj1"] ["Knowledge"]).overview.archetypes = ["Knowledge"] :=
  C4_blueprint_fixed_template ["Obj1"] ["Knowledge"] (by decide) (by decide)

/-- C5: the blueprint endpoint fails with InvalidInput exactly when the
objectives list or the archetypes list is empty, and otherwise returns the
blueprint built from the two inputs. -/
theorem C5_blueprint_error_iff_empty (objectives archetypes : List String) :
    (generate_blueprint objectives archetypes = .error .InvalidInput ↔
      (objectives = [] ∨ archetypes = [])) ∧
    (objectives ≠ [] → archetypes ≠ [] →
      generate_blueprint objectives archetypes =
        .ok ⟨build_blueprint objectives archetypes⟩) := by
  constructor
  · constructor
    · intro h
      by_contra hc
      push_neg at hc
      rw [generate_blueprint, if_neg (not_or.mpr hc)] at h
      exact Except.noConfusion h
    · intro h
      rw [generate_blueprint, if_pos h]
  · intro ho ha
    rw [generate_blueprint, if_neg (not_or.mpr ⟨ho, ha⟩)]

/-- C5 witness: an empty objectives list is rejected and a non-empty pair
of inputs succeeds. -/
theorem C5_blueprint_error_iff_empty_witness :
    generate_blueprint [] ["Knowledge"] = .error .InvalidInput ∧
    generate_blueprint ["Obj1"] ["Knowledge"] =
      .ok ⟨build_blueprint ["Obj1"] ["Knowledge"]⟩ :=
  ⟨(C5_blueprint_error_iff_empty [] ["Knowledge"]).1.mpr (Or.inl rfl),
   (C5_blueprint_error_iff_empty ["Obj1"] ["Knowledge"]).2 (by decide) (by decide)⟩

/-- C6: the validate endpoint never fails (it is a total function to a
verdict); its valid flag is true exactly when every value in the mapping is
true, hence vacuously true on the empty mapping, and its message is the
fixed success string when valid and the fixed failure string otherwise. -/
theorem C6_validate_all_values (required_fields : List (String × Bool)) :
    ((validate_module required_fields).valid = true ↔
      ∀ p ∈ required_fields, p.2 = true) ∧
    ((validate_module []).valid = true) ∧
    (validate_module required_fields).message =
      (if (validate_module required_fields).valid
       then "All required inputs provided."
       else "Missing required fields; generation blocked.") := by
  refine ⟨?_, rfl, rfl⟩
  simp [validate_module, validate_inputs, List.all_eq_true]

/-- C7: for empty or whitespace-only text the analyse endpoint fails with
InvalidInput and produces no response: the blank guard is the first
statement of the handler, so the error is the entire observable effect and
no stage output reaches the caller. -/
theorem C7_analyse_blank_short_circuits (t : String) (h : isBlank t = true) :
    analyse_document t = .error .InvalidInput ∧
    ∀ r : AnalysisResponse, analyse_document t ≠ .ok r := by
  have he : analyse_document t = .error .InvalidInput := by
    rw [analyse_document, if_pos (by simp [h])]
  exact ⟨he, fun r hr => by rw [he] at hr; exact Except.noConfusion hr⟩

/-- C7 witness: the short-circuit at the empty string. -/
theorem C7_analyse_blank_short_circuits_witness :
    analyse_document "" = .error .InvalidInput ∧
    ∀ r : AnalysisResponse, analyse_document "" ≠ .ok r :=
  C7_analyse_blank_short_circuits "" (by decide)

/-- C8: for any scores mapping containing the three canonical labels (and
possibly others), select succeeds and returns exactly three archetypes: the
fixed-table archetype of the maximal label (defaulting to Knowledge for an
unknown label) followed by the non-primary table values in the table's
canonical value order, truncated to at most two. -/
theorem C8_select_shape (scores : Scores)
    (hf : "factual" ∈ scores.map Prod.fst)
    (hp : "procedural" ∈ scores.map Prod.fst)
    (hc : "conceptual" ∈ scores.map Prod.fst) :
    ∃ p l, dictMax scores = some p ∧
      select_archetypes scores = some l ∧
      l = archLookup p ::
        ((archTable.map Prod.snd).filter (· ≠ archLookup p)).take 2 ∧
      l.length = 3 := by
  cases scores with
  | nil => simp at hf
  | cons kv rest =>
    obtain ⟨k, v⟩ := kv
    refine ⟨dictMaxGo k v rest,
      archLookup (dictMaxGo k v rest) ::
        ((archTable.map Prod.snd).filter (· ≠ archLookup (dictMaxGo k v rest))).take 2,
      rfl, rfl, rfl, ?_⟩
    rcases archLookup_mem (dictMaxGo k v rest) with h | h | h <;>
      rw [h] <;> decide

/-- C8 witness: the shape at a concrete scores mapping with factual
strictly maximal. -/
theorem C8_select_shape_witness :
    ∃ p l,
      dictMax [("factual", (1 : ℚ)), ("procedural", 0), ("conceptual", 0)] = some p ∧
      select_archetypes [("factual", (1 : ℚ)), ("procedural", 0), ("conceptual", 0)] =
        some l ∧
      l = archLookup p ::
        ((archTable.map Prod.snd).filter (· ≠ archLookup p)).take 2 ∧
      l.length = 3 :=
  C8_select_shape [("factual", (1 : ℚ)), ("procedural", 0), ("conceptual", 0)]
    (by decide) (by decide) (by decide)

/-- C9: analyse is deterministic and stateless: over the state-passing
embedding of the module (whose only mutable state is the vector store), the
result is independent of the store state, the store state is unchanged, and
a second call with the same text from the resulting state returns the same
result. -/
theorem C9_analyse_deterministic (t : String) (σ σ' : StoreState) :
    (analyse_document_st t σ).1 = (analyse_document_st t σ').1 ∧
    (analyse_document_st t σ).2 = σ ∧
    (analyse_document_st t (analyse_document_st t σ).2).1 =
      (analyse_document_st t σ).1 :=
  ⟨rfl, rfl, rfl⟩

/-- C10: the /analyze handler is a direct delegation, so it agrees with the
/analyse handler on every content, blank or not: same success value or same
failure. -/
theorem C10_analyze_alias_equiv (content : String) :
    analyze_alias content = analyse_document content :=
  rfl
